import Mathlib

/-
Verification of the Raven Betanet dual-CLI repository (binary compliance
audit engine): shallow embedding of the check data model, the check
registry and runner, the raven-linter check command's control flow, the
text report renderer, and the Chrome-version-to-ClientHelloID mapping.

Definitions marked "Modelled from the spec:" embed components of the
internal/checks package whose implementation files are not part of the
source tree (only their type declarations, callers and test drivers
are); they follow the specification's description of those components.
Everything else is translated directly from the Go source files.
-/

set_option maxRecDepth 8000

namespace Betanet

/-- Status of a single compliance check: the source declares
`Status string` with the comment "pass" | "fail", a closed two-valued
outcome. -/
inductive CheckStatus where
  | pass : CheckStatus
  | fail : CheckStatus
deriving DecidableEq, Repr, Inhabited

/-- CheckResult, from the `package checks` declaration
(src/cmd/chrome-utls-gen/main.go, CheckResult struct): check id,
description, status, details, optional metadata.  Metadata
(`map[string]interface{}` in Go) is modelled as an association list of
string pairs. -/
structure CheckResult where
  id : String
  description : String
  status : CheckStatus
  details : String
  metadata : List (String × String)
deriving DecidableEq, Repr, Inhabited

/-- ComplianceReport, from the `package checks` declaration
(src/cmd/chrome-utls-gen/main.go, ComplianceReport struct).  The
timestamp is modelled as a natural number. -/
structure ComplianceReport where
  timestamp : Nat
  binaryPath : String
  binaryHash : String
  totalChecks : Nat
  passedChecks : Nat
  failedChecks : Nat
  results : List CheckResult
  sbomPath : String
deriving DecidableEq, Repr, Inhabited

/-- Modelled from the spec: `IsReportPassing`, used by runCheckCommand
and by both test drivers; its body lives in the internal/checks
package, which is absent from the source tree.  The spec states the
report is overall passing iff `failed == 0`. -/
def IsReportPassing (r : ComplianceReport) : Bool :=
  r.failedChecks == 0

/-- Go field names of the CheckResult struct exactly as declared in the
`package checks` section of src/cmd/chrome-utls-gen/main.go
(lines 689-695). -/
def checkResultDeclaredGoFields : List String :=
  ["ID", "Description", "Status", "Details", "Metadata"]

/-- Go field names of CheckResult accessed by the repository's own test
driver src/test_binary_analysis.go (lines 48-58) when printing each
result. -/
def testDriverAccessedFields : List String :=
  ["ID", "Description", "Status", "Details", "Duration", "Metadata"]

/-- ChromeVersion, from the tlsgen declarations used by
src/cmd/chrome-utls-gen/main.go (major/minor/build/patch are Go ints). -/
structure ChromeVersion where
  major : Int
  minor : Int
  build : Int
  patch : Int
deriving DecidableEq, Repr, Inhabited

/-- The uTLS ClientHelloID values referenced by
mapChromeVersionToClientHelloID. -/
inductive ClientHelloID where
  | helloChrome_133 : ClientHelloID
  | helloChrome_131 : ClientHelloID
  | helloChrome_120 : ClientHelloID
  | helloChrome_115_PQ : ClientHelloID
  | helloChrome_106_Shuffle : ClientHelloID
  | helloChrome_102 : ClientHelloID
  | helloChrome_100 : ClientHelloID
  | helloChrome_96 : ClientHelloID
  | helloChrome_87 : ClientHelloID
  | helloChrome_83 : ClientHelloID
  | helloChrome_72 : ClientHelloID
  | helloChrome_70 : ClientHelloID
deriving DecidableEq, Repr, Inhabited

/-- mapChromeVersionToClientHelloID
(src/cmd/chrome-utls-gen/main.go, lines 428-473): a top-down switch on
version.Major; every branch returns a ClientHelloID together with a nil
error (modelled as `none`). -/
def mapChromeVersionToClientHelloID (version : ChromeVersion) :
    ClientHelloID × Option String :=
  if version.major ≥ 133 then (ClientHelloID.helloChrome_133, none)
  else if version.major ≥ 131 then (ClientHelloID.helloChrome_131, none)
  else if version.major ≥ 120 then (ClientHelloID.helloChrome_120, none)
  else if version.major ≥ 115 then (ClientHelloID.helloChrome_115_PQ, none)
  else if version.major ≥ 106 then (ClientHelloID.helloChrome_106_Shuffle, none)
  else if version.major ≥ 102 then (ClientHelloID.helloChrome_102, none)
  else if version.major ≥ 100 then (ClientHelloID.helloChrome_100, none)
  else if version.major ≥ 96 then (ClientHelloID.helloChrome_96, none)
  else if version.major ≥ 87 then (ClientHelloID.helloChrome_87, none)
  else if version.major ≥ 83 then (ClientHelloID.helloChrome_83, none)
  else if version.major ≥ 72 then (ClientHelloID.helloChrome_72, none)
  else if version.major ≥ 70 then (ClientHelloID.helloChrome_70, none)
  else (ClientHelloID.helloChrome_100, none)

/-- Go's strings.ToLower lower-cases each character; modelled over the
character list of the string. -/
def goToLower (s : String) : List Char := s.data.map Char.toLower

/-- isValidOutputFormat (src/cmd/raven-linter/main.go, lines 292-299):
case-insensitive membership in the set of supported output formats. -/
def isValidOutputFormat (format : String) : Bool :=
  goToLower format == "json".data || goToLower format == "text".data

/-- isValidSBOMFormat (src/cmd/raven-linter/main.go, lines 302-309):
case-insensitive membership in the set of supported SBOM formats. -/
def isValidSBOMFormat (format : String) : Bool :=
  goToLower format == "cyclonedx".data || goToLower format == "spdx".data

/-- The observable outcome of the raven-linter check command after the
two worker goroutines have finished: either the RunE function returns a
non-nil error (main then prints it and the process exits with status
1), or the report is output and the process finishes with the given
exit status. -/
inductive CmdOutcome where
  | fatal : String → CmdOutcome
  | exited : ComplianceReport → Nat → CmdOutcome
deriving DecidableEq, Repr, Inhabited

/-- The tail of runCheckCommand (src/cmd/raven-linter/main.go, lines
208-236), after `wg.Wait()`: a compliance-check error aborts with an
error; an SBOM error is only logged as a warning, while a successful
SBOM run with a non-empty path is recorded on the report; the report is
then output, and the process exits 1 iff the report is not passing. -/
def finishCheckCommand (generateSBOM : Bool) (checkErr sbomErr : Option String)
    (sbomPath : String) (report : ComplianceReport) : CmdOutcome :=
  match checkErr with
  | some e => CmdOutcome.fatal e
  | none =>
    let report2 :=
      if generateSBOM && sbomErr.isSome then report
      else if generateSBOM && !(sbomPath == "") then
        { report with sbomPath := sbomPath }
      else report
    CmdOutcome.exited report2 (if IsReportPassing report2 then 0 else 1)

/-- The process exit status of `raven-linter check`, combining
runCheckCommand's validation prologue (src/cmd/raven-linter/main.go,
lines 128-150) and `finishCheckCommand` with main's error handler
(lines 80-84): any non-nil error returned from the command makes main
print it and call os.Exit(1). -/
def runCheckExitCode (outputFormat : String) (generateSBOM : Bool)
    (sbomFormat sbomOutput : String) (checkErr sbomErr : Option String)
    (sbomPath : String) (report : ComplianceReport) : Nat :=
  if !isValidOutputFormat outputFormat then 1
  else if generateSBOM && !isValidSBOMFormat sbomFormat then 1
  else if generateSBOM && sbomOutput == "" then 1
  else
    match finishCheckCommand generateSBOM checkErr sbomErr sbomPath report with
    | CmdOutcome.fatal _ => 1
    | CmdOutcome.exited _ code => code

/-- The DETAILS table cell of one result row in outputTextReport
(src/cmd/raven-linter/main.go, lines 394-397): when the details string
is longer than 50 bytes, Go keeps its first 47 bytes and appends three
dots; strings are modelled as their character lists. -/
def detailsCell (details : List Char) : List Char :=
  if details.length > 50 then details.take 47 ++ ['.', '.', '.']
  else details

/-- The Failed Checks Details section of outputTextReport
(src/cmd/raven-linter/main.go, lines 404-420): printed only when
FailedChecks > 0, repeating the untruncated Details of every result
whose status is "fail". -/
def failedChecksDetails (report : ComplianceReport) : List String :=
  if report.failedChecks > 0 then
    (report.results.filter (fun r => r.status == CheckStatus.fail)).map
      (fun r => r.details)
  else []

/-- Modelled from the spec: the input of one compliance run as the
runner observes it — whether the path could be opened, whether format
detection/parsing succeeded, plus the path and precomputed content
hash (the internal/checks runner is absent from the source tree). -/
structure BinaryInput where
  path : String
  hash : String
  openable : Bool
  parseOk : Bool
deriving DecidableEq, Repr, Inhabited

/-- Modelled from the spec: a ComplianceCheck — stable identifier,
human description, a pure function from the input to an outcome
(status and details), and whether the check depends on successful
format parsing (spec 4.3 step 3 distinguishes format-dependent from
format-independent checks). -/
structure ComplianceCheck where
  id : String
  description : String
  formatDependent : Bool
  run : BinaryInput → CheckStatus × String

/-- Modelled from the spec: the check registry — an ordered collection
of checks (registration order preserved). -/
structure CheckRegistry where
  checks : List ComplianceCheck

/-- Modelled from the spec: the registration error returned when a
check identifier collides with an already-registered one. -/
inductive RegistryError where
  | duplicateCheckID : RegistryError
deriving DecidableEq, Repr

/-- Modelled from the spec: NewCheckRegistry constructs a fresh, empty
registry per run invocation. -/
def NewCheckRegistry : CheckRegistry := ⟨[]⟩

/-- Modelled from the spec: Registry.Register enforces identifier
uniqueness at registration (DuplicateCheckID on collision, leaving the
registry as it was) and otherwise appends the check, preserving
registration order. -/
def Register (reg : CheckRegistry) (c : ComplianceCheck) :
    Except RegistryError CheckRegistry :=
  if reg.checks.any (fun c0 => c0.id == c.id) then
    Except.error RegistryError.duplicateCheckID
  else Except.ok ⟨reg.checks ++ [c]⟩

/-- Modelled from the spec: Registry.Count exposes the number of
registered checks. -/
def Count (reg : CheckRegistry) : Nat := reg.checks.length

/-- Modelled from the spec: the failing CheckResult given individually
to every format-dependent check when format detection or parsing fails
(spec 4.3 step 3). -/
def formatFailResult (c : ComplianceCheck) : CheckResult :=
  { id := c.id, description := c.description, status := CheckStatus.fail,
    details := "unsupported or malformed binary format", metadata := [] }

/-- Modelled from the spec: executing one registered check inside
RunAll — if parsing failed and the check is format-dependent it is
individually marked failed; otherwise the check's own pure outcome is
recorded (spec 4.3 steps 3-4). -/
def execOne (parsed : Bool) (c : ComplianceCheck) (input : BinaryInput) :
    CheckResult :=
  if c.formatDependent && !parsed then formatFailResult c
  else
    { id := c.id, description := c.description, status := (c.run input).1,
      details := (c.run input).2, metadata := [] }

/-- Modelled from the spec: the index-addressed output slots of the
runner — each completing worker writes the result of check i into slot
i, whatever the completion order (spec 4.3 step 5 and 9). -/
def fillSlots (exec : Nat → CheckResult) :
    List Nat → List (Option CheckResult) → List (Option CheckResult)
  | [], slots => slots
  | i :: rest, slots => fillSlots exec rest (slots.set i (some (exec i)))

/-- Count of results with the given status. -/
def countStatus (s : CheckStatus) (rs : List CheckResult) : Nat :=
  rs.countP (fun r => r.status == s)

/-- Modelled from the spec: the only fatal error of a run — the binary
path is unreadable or missing (spec 4.3 step 1 and 7). -/
inductive RunError where
  | inputError : RunError
deriving DecidableEq, Repr

/-- Modelled from the spec: the ordered result list of one run — every
check executed via execOne, workers finishing in the given completion
order and writing into index-addressed slots, reassembled in index
order. -/
def runResults (reg : CheckRegistry) (input : BinaryInput)
    (order : List Nat) : List CheckResult :=
  let exec : Nat → CheckResult := fun i =>
    match reg.checks[i]? with
    | some c => execOne input.parseOk c input
    | none => default
  (fillSlots exec order (List.replicate reg.checks.length none)).map
    (fun o => o.getD default)

/-- Modelled from the spec: report assembly (spec 4.3 step 6) — the
aggregated counts are computed from the reassembled result list. -/
def mkReport (input : BinaryInput) (results : List CheckResult) :
    ComplianceReport :=
  { timestamp := 0, binaryPath := input.path, binaryHash := input.hash,
    totalChecks := results.length,
    passedChecks := countStatus CheckStatus.pass results,
    failedChecks := countStatus CheckStatus.fail results,
    results := results, sbomPath := "" }

/-- Modelled from the spec: CheckRunner.RunAll (spec 4.3): an
unopenable path is the only fatal outcome and yields no report; for an
openable path every registered check runs (degraded when parsing
failed) and a report with aggregated counts is emitted.  The worker
completion order is passed explicitly as data. -/
def RunAll (reg : CheckRegistry) (input : BinaryInput) (order : List Nat) :
    Except RunError ComplianceReport :=
  if input.openable = false then Except.error RunError.inputError
  else Except.ok (mkReport input (runResults reg input order))

/-- The report RunAll produces on an openable input (default report on
the fatal path); used to state closed witness instances. -/
def reportOf (reg : CheckRegistry) (input : BinaryInput) (order : List Nat) :
    ComplianceReport :=
  match RunAll reg input order with
  | Except.ok r => r
  | Except.error _ => default

/-- Modelled from the spec: the error taxonomy of the format parsers
(spec 4.2). -/
inductive ParseError where
  | malformedHeader : ParseError
  | unexpectedEOF : ParseError
  | unsupportedVariant : ParseError
deriving DecidableEq, Repr

/-- Modelled from the spec: the single bounds-checked read primitive of
the format parsers (spec 4.2) — every offset and size is validated
against the file length before any byte is touched; an out-of-range
request fails with MalformedHeader. -/
def readAt (data : List Nat) (off size : Nat) :
    Except ParseError (List Nat) :=
  if off + size ≤ data.length then Except.ok ((data.drop off).take size)
  else Except.error ParseError.malformedHeader

/-- A 16-bit little-endian field at index i of a header slice. -/
def word16 (bs : List Nat) (i : Nat) : Nat :=
  bs.getD i 0 + 256 * bs.getD (i + 1) 0

/-- Modelled from the spec: the structural output of a format parser —
architecture plus the raw section table bytes (a representative slice
of the BinaryDescriptor). -/
structure ParsedBinary where
  arch : Nat
  table : List Nat
deriving DecidableEq, Repr, Inhabited

/-- The ELF signature bytes 0x7f 'E' 'L' 'F'. -/
def elfMagic : List Nat := [127, 69, 76, 70]

/-- Modelled from the spec: the section-table offset and size the
container's header declares — byte 4 of the file starts an 8-byte
header whose bytes 2-3 are the little-endian table offset and bytes
4-5 its size. -/
def declaredTableRange (data : List Nat) : Nat × Nat :=
  match readAt data 4 8 with
  | Except.ok hdr => (word16 hdr 2, word16 hdr 4)
  | Except.error _ => (0, 0)

/-- Modelled from the spec: a format parser (spec 4.2) — it reads the
magic, then the fixed header, then the section table at the offset and
size the header itself declares, every read going through the
bounds-checked readAt, so adversarially truncated or corrupted input
fails with MalformedHeader (or UnsupportedVariant on a wrong
signature) instead of reading past the end of the input. -/
def parseContainer (data : List Nat) : Except ParseError ParsedBinary :=
  match readAt data 0 4 with
  | Except.error e => Except.error e
  | Except.ok magic =>
    if magic = elfMagic then
      match readAt data 4 8 with
      | Except.error e => Except.error e
      | Except.ok hdr =>
        match readAt data (word16 hdr 2) (word16 hdr 4) with
        | Except.error e => Except.error e
        | Except.ok table => Except.ok { arch := hdr.getD 0 0, table := table }
    else Except.error ParseError.unsupportedVariant

/-- A simple passing check used by witness instances. -/
def mkSimpleCheck (name : String) : ComplianceCheck :=
  { id := name, description := "sample check", formatDependent := false,
    run := fun _ => (CheckStatus.pass, "ok") }

/-- A format-dependent check used by witness instances. -/
def fdCheck : ComplianceCheck :=
  { id := "binary-format", description := "format structure",
    formatDependent := true, run := fun _ => (CheckStatus.pass, "ok") }

/-- A format-independent check used by witness instances. -/
def fiCheck : ComplianceCheck :=
  { id := "hash-integrity", description := "content hash",
    formatDependent := false, run := fun _ => (CheckStatus.pass, "ok") }

/-- A registry holding eleven distinct checks, like the production
registerAllChecks (src/cmd/raven-linter/main.go, lines 240-289). -/
def reg11 : CheckRegistry :=
  ⟨[mkSimpleCheck "c01", mkSimpleCheck "c02", mkSimpleCheck "c03",
    mkSimpleCheck "c04", mkSimpleCheck "c05", mkSimpleCheck "c06",
    mkSimpleCheck "c07", mkSimpleCheck "c08", mkSimpleCheck "c09",
    mkSimpleCheck "c10", mkSimpleCheck "c11"]⟩

/-- A two-check registry mixing a format-dependent and a
format-independent check. -/
def regMixed : CheckRegistry := ⟨[fdCheck, fiCheck]⟩

/-- An openable, parseable input. -/
def inputGood : BinaryInput :=
  { path := "bin", hash := "abc", openable := true, parseOk := true }

/-- An openable input whose format detection/parsing failed. -/
def inputUnparsed : BinaryInput :=
  { path := "bin", hash := "abc", openable := true, parseOk := false }

/-- An unopenable input path. -/
def inputClosed : BinaryInput :=
  { path := "missing", hash := "", openable := false, parseOk := false }

/-- An empty compliance report (all counters zero). -/
def emptyReport : ComplianceReport := default

/-- A failing check result used by witness instances. -/
def sampleFailResult : CheckResult :=
  { id := "c1", description := "d", status := CheckStatus.fail,
    details := "bad", metadata := [] }

/-- A one-result failing report used by witness instances. -/
def sampleFailReport : ComplianceReport :=
  { timestamp := 0, binaryPath := "bin", binaryHash := "abc",
    totalChecks := 1, passedChecks := 0, failedChecks := 1,
    results := [sampleFailResult], sbomPath := "" }

/-- A 14-byte well-formed container fixture: ELF magic, an 8-byte
header declaring a 2-byte section table at offset 12. -/
def goodContainer : List Nat :=
  [127, 69, 76, 70, 9, 0, 12, 0, 2, 0, 0, 0, 42, 43]

end Betanet

namespace Betanet

/-- Auxiliary: fillSlots preserves the number of slots. -/
theorem fillSlots_length (exec : Nat → CheckResult) (order : List Nat) :
    ∀ slots : List (Option CheckResult),
      (fillSlots exec order slots).length = slots.length := by
  induction order with
  | nil => intro slots; rfl
  | cons j rest ih =>
    intro slots
    rw [fillSlots, ih, List.length_set]

/-- Auxiliary: slot i of the filled output holds the result of check i
whenever worker i completed (wherever i occurs in the completion
order), and is untouched otherwise. -/
theorem fillSlots_getElem? (exec : Nat → CheckResult) (order : List Nat) :
    ∀ (slots : List (Option CheckResult)) (i : Nat),
      (fillSlots exec order slots)[i]? =
        if i ∈ order ∧ i < slots.length then some (some (exec i))
        else slots[i]? := by
  induction order with
  | nil => intro slots i; simp [fillSlots]
  | cons j rest ih =>
    intro slots i
    rw [fillSlots, ih, List.length_set]
    rcases Decidable.em (i ∈ rest) with hm | hm
    · rcases Decidable.em (i < slots.length) with hl | hl
      · simp [hm, hl, List.mem_cons]
      · simp only [hm, hl, and_true, and_false, if_false]
        rw [List.getElem?_eq_none (by simp; omega),
          List.getElem?_eq_none (by omega)]
    · rcases Decidable.em (i = j) with hij | hij
      · subst hij
        rcases Decidable.em (i < slots.length) with hl | hl
        · simp [hm, hl, List.getElem?_set_self hl]
        · simp only [hm, hl, false_and, and_false, if_false, and_true]
          rw [List.getElem?_eq_none (by simp; omega),
            List.getElem?_eq_none (by omega)]
      · have hnot : ¬ i ∈ j :: rest := by
          simp [List.mem_cons, hij, hm]
        simp [hm, hnot, List.getElem?_set_ne (fun h => hij h.symm)]

/-- Auxiliary: the reassembled result list has exactly one entry per
registered check. -/
theorem runResults_length (reg : CheckRegistry) (input : BinaryInput)
    (order : List Nat) :
    (runResults reg input order).length = reg.checks.length := by
  simp [runResults, fillSlots_length]

/-- Auxiliary: entry i of the reassembled result list is the executed
outcome of registered check i, provided worker i completed. -/
theorem runResults_getElem? (reg : CheckRegistry) (input : BinaryInput)
    (order : List Nat) (i : Nat) (c : ComplianceCheck)
    (hmem : i ∈ order) (hc : reg.checks[i]? = some c) :
    (runResults reg input order)[i]? =
      some (execOne input.parseOk c input) := by
  have hi : i < reg.checks.length := by
    by_contra hge
    rw [List.getElem?_eq_none (by omega)] at hc
    exact Option.noConfusion hc
  rw [runResults]
  rw [List.getElem?_map, fillSlots_getElem?]
  rw [if_pos (by simp [hmem, hi])]
  simp [hc]

/-- Auxiliary: in any CheckResult list, passing and failing results
exhaust all entries (the status is a closed two-valued outcome). -/
theorem countStatus_pass_add_fail (rs : List CheckResult) :
    countStatus CheckStatus.pass rs + countStatus CheckStatus.fail rs =
      rs.length := by
  induction rs with
  | nil => rfl
  | cons r t ih =>
    rcases h : r.status with _ | _ <;>
      simp [countStatus, List.countP_cons, h] at * <;> omega

/-- Auxiliary: a successful readAt validated its range against the
file length. -/
theorem readAt_ok_bound {data : List Nat} {off size : Nat} {bs : List Nat}
    (h : readAt data off size = Except.ok bs) : off + size ≤ data.length := by
  unfold readAt at h
  split at h
  · assumption
  · exact Except.noConfusion h

/-- Auxiliary: the bytes a successful readAt returns are the in-bounds
slice it validated. -/
theorem readAt_ok_val {data : List Nat} {off size : Nat} {bs : List Nat}
    (h : readAt data off size = Except.ok bs) :
    bs = (data.drop off).take size := by
  unfold readAt at h
  split at h
  · exact (Except.ok.inj h).symm
  · exact Except.noConfusion h

end Betanet

namespace Betanet

/-- Claim C1: for every ComplianceReport produced by RunAll, the
aggregated counts satisfy total = passed + failed = length of the
results list (11 when all eleven checks are registered), and the
report is overall passing (IsReportPassing) iff failed_checks = 0. -/
theorem c1_report_count_invariants (reg : CheckRegistry)
    (input : BinaryInput) (order : List Nat) (r : ComplianceReport)
    (h : RunAll reg input order = Except.ok r) :
    r.totalChecks = r.passedChecks + r.failedChecks ∧
    r.totalChecks = r.results.length ∧
    (Count reg = 11 → r.totalChecks = 11) ∧
    (IsReportPassing r = true ↔ r.failedChecks = 0) := by
  unfold RunAll at h
  split at h
  · exact Except.noConfusion h
  · have hr : r = mkReport input (runResults reg input order) :=
      (Except.ok.inj h).symm
    subst hr
    refine ⟨?_, rfl, ?_, ?_⟩
    · exact (countStatus_pass_add_fail (runResults reg input order)).symm
    · intro h11
      have := runResults_length reg input order
      simp only [mkReport]
      rw [this]
      exact h11
    · simp [IsReportPassing]

/-- Claim C1 witness: the invariants instantiated on a run of a
registry holding eleven checks. -/
theorem c1_report_count_invariants_witness :
    (reportOf reg11 inputGood (List.range 11)).totalChecks =
        (reportOf reg11 inputGood (List.range 11)).passedChecks +
          (reportOf reg11 inputGood (List.range 11)).failedChecks ∧
    (reportOf reg11 inputGood (List.range 11)).totalChecks = 11 ∧
    (IsReportPassing (reportOf reg11 inputGood (List.range 11)) = true ↔
      (reportOf reg11 inputGood (List.range 11)).failedChecks = 0) := by
  have h : RunAll reg11 inputGood (List.range 11) =
      Except.ok (reportOf reg11 inputGood (List.range 11)) := rfl
  have main := c1_report_count_invariants reg11 inputGood (List.range 11)
    (reportOf reg11 inputGood (List.range 11)) h
  exact ⟨main.1, main.2.2.1 (by rfl), main.2.2.2⟩

/-- Claim C2 (code behaviour at the failing input): an unsupported
--format or --sbom-format value makes the check command return an
error, which main answers with os.Exit(1) — the process exit status is
1, not the claimed 2. -/
theorem c2_invalid_config_exits_one :
    runCheckExitCode "xml" false "cyclonedx" "sbom.json" none none ""
        emptyReport = 1 ∧
    runCheckExitCode "text" true "yaml" "sbom.json" none none ""
        emptyReport = 1 ∧
    runCheckExitCode "text" false "cyclonedx" "sbom.json" none none ""
        emptyReport = 0 ∧
    runCheckExitCode "text" false "cyclonedx" "sbom.json" none none ""
        sampleFailReport = 1 := by
  decide

/-- Claim C3: if format detection or parsing fails the run is not
aborted — a report is still produced in which every format-dependent
check is individually marked failed with details "unsupported or
malformed binary format" while format-independent checks execute their
own logic; only an unopenable input is fatal and yields no report. -/
theorem c3_graceful_degradation (reg : CheckRegistry) (input : BinaryInput)
    (order : List Nat) :
    (input.openable = false →
      RunAll reg input order = Except.error RunError.inputError) ∧
    (input.openable = true →
      ∃ r, RunAll reg input order = Except.ok r ∧
        ∀ i, i ∈ order → ∀ c, reg.checks[i]? = some c →
          r.results[i]? = some (execOne input.parseOk c input) ∧
          (input.parseOk = false → c.formatDependent = true →
            execOne input.parseOk c input = formatFailResult c ∧
            (formatFailResult c).details =
              "unsupported or malformed binary format") ∧
          (c.formatDependent = false →
            execOne input.parseOk c input = execOne true c input)) := by
  constructor
  · intro hclosed
    unfold RunAll
    rw [if_pos hclosed]
  · intro hopen
    refine ⟨mkReport input (runResults reg input order), ?_, ?_⟩
    · unfold RunAll
      rw [if_neg (by simp [hopen])]
    · intro i hmem c hc
      refine ⟨?_, ?_, ?_⟩
      · simpa [mkReport] using runResults_getElem? reg input order i c hmem hc
      · intro hparse hdep
        refine ⟨?_, rfl⟩
        simp [execOne, hparse, hdep]
      · intro hdep
        simp [execOne, hdep]

/-- Claim C3 witness: an unopenable path is fatal with no report, while
a mixed registry on an openable-but-unparseable input yields a report
whose format-dependent check is marked failed with the degradation
details and whose format-independent check ran its own logic. -/
theorem c3_graceful_degradation_witness :
    RunAll regMixed inputClosed [0, 1] =
        Except.error RunError.inputError ∧
    (reportOf regMixed inputUnparsed [0, 1]).results[0]? =
        some (formatFailResult fdCheck) ∧
    (reportOf regMixed inputUnparsed [0, 1]).results[1]? =
        some (execOne true fiCheck inputUnparsed) := by
  refine ⟨(c3_graceful_degradation regMixed inputClosed [0, 1]).1 rfl, ?_, ?_⟩
  · obtain ⟨r, hok, hres⟩ :=
      (c3_graceful_degradation regMixed inputUnparsed [0, 1]).2 rfl
    have hrep : reportOf regMixed inputUnparsed [0, 1] = r := by
      simp [reportOf, hok]
    have h0 := hres 0 (by simp) fdCheck rfl
    rw [hrep, h0.1, (h0.2.1 rfl rfl).1]
  · obtain ⟨r, hok, hres⟩ :=
      (c3_graceful_degradation regMixed inputUnparsed [0, 1]).2 rfl
    have hrep : reportOf regMixed inputUnparsed [0, 1] = r := by
      simp [reportOf, hok]
    have h1 := hres 1 (by simp) fiCheck rfl
    rw [hrep, h1.1, h1.2.2 rfl]

/-- Claim C4: an SBOM-generation failure never fails the compliance
run — with a nil check error and a non-nil sbomErr the command still
outputs the (unmodified) report and the exit status is decided only by
the check results: 0 iff no check failed. -/
theorem c4_sbom_failure_never_fails_run (generateSBOM : Bool)
    (e sbomPath : String) (report : ComplianceReport) :
    finishCheckCommand generateSBOM none (some e) sbomPath report =
      CmdOutcome.exited report (if report.failedChecks == 0 then 0 else 1) := by
  cases generateSBOM <;> simp [finishCheckCommand, IsReportPassing]

/-- Claim C5: registering a check whose identifier collides with an
already-registered one fails with DuplicateCheckID; any other
registration succeeds, appends the check (preserving registration
order) and increases the count by exactly one. -/
theorem c5_register_duplicate_id (reg : CheckRegistry)
    (c : ComplianceCheck) :
    ((∃ c0 ∈ reg.checks, c0.id = c.id) →
      Register reg c = Except.error RegistryError.duplicateCheckID) ∧
    ((∀ c0 ∈ reg.checks, c0.id ≠ c.id) →
      Register reg c = Except.ok ⟨reg.checks ++ [c]⟩ ∧
      Count ⟨reg.checks ++ [c]⟩ = Count reg + 1) := by
  constructor
  · rintro ⟨c0, hmem, hid⟩
    unfold Register
    rw [if_pos]
    exact List.any_eq_true.mpr ⟨c0, hmem, by simp [hid]⟩
  · intro hall
    unfold Register
    rw [if_neg]
    · exact ⟨rfl, by simp [Count]⟩
    · intro hany
      obtain ⟨c0, hmem, hid⟩ := List.any_eq_true.mp hany
      exact hall c0 hmem (by simpa using hid)

/-- Claim C5 witness: re-registering an identifier fails with
DuplicateCheckID; registering a fresh identifier succeeds and the count
grows by one. -/
theorem c5_register_duplicate_id_witness :
    Register ⟨[fdCheck]⟩ fdCheck =
        Except.error RegistryError.duplicateCheckID ∧
    Register ⟨[fdCheck]⟩ fiCheck = Except.ok ⟨[fdCheck] ++ [fiCheck]⟩ ∧
    Count ⟨[fdCheck] ++ [fiCheck]⟩ = Count ⟨[fdCheck]⟩ + 1 := by
  refine ⟨?_, ?_, ?_⟩
  · exact (c5_register_duplicate_id ⟨[fdCheck]⟩ fdCheck).1
      ⟨fdCheck, by simp, rfl⟩
  · exact ((c5_register_duplicate_id ⟨[fdCheck]⟩ fiCheck).2
      (by intro c0 hmem; simp at hmem; subst hmem; simp [fdCheck, fiCheck])).1
  · exact ((c5_register_duplicate_id ⟨[fdCheck]⟩ fiCheck).2
      (by intro c0 hmem; simp at hmem; subst hmem; simp [fdCheck, fiCheck])).2

/-- Claim C6: the ordered result list of the emitted report equals the
registration order of the checks, for every worker completion order
that covers all registered checks. -/
theorem c6_results_in_registration_order (reg : CheckRegistry)
    (input : BinaryInput) (order : List Nat) (r : ComplianceReport)
    (hcover : ∀ i, i < reg.checks.length → i ∈ order)
    (h : RunAll reg input order = Except.ok r) :
    r.results = reg.checks.map (fun c => execOne input.parseOk c input) := by
  unfold RunAll at h
  split at h
  · exact Except.noConfusion h
  · have hr : r = mkReport input (runResults reg input order) :=
      (Except.ok.inj h).symm
    subst hr
    simp only [mkReport]
    apply List.ext_getElem?
    intro i
    rcases Decidable.em (i < reg.checks.length) with hi | hi
    · have hc : reg.checks[i]? = some reg.checks[i] :=
        List.getElem?_eq_getElem hi
      rw [runResults_getElem? reg input order i reg.checks[i] (hcover i hi) hc]
      rw [List.getElem?_map, hc]
      rfl
    · rw [List.getElem?_eq_none, List.getElem?_eq_none]
      · rw [List.length_map]; omega
      · rw [runResults_length]; omega

/-- Claim C6 witness: with the two workers completing in reversed
order, the report's results still follow registration order. -/
theorem c6_results_in_registration_order_witness :
    (reportOf regMixed inputUnparsed [1, 0]).results =
      regMixed.checks.map
        (fun c => execOne inputUnparsed.parseOk c inputUnparsed) := by
  have h : RunAll regMixed inputUnparsed [1, 0] =
      Except.ok (reportOf regMixed inputUnparsed [1, 0]) := rfl
  exact c6_results_in_registration_order regMixed inputUnparsed [1, 0]
    (reportOf regMixed inputUnparsed [1, 0]) (by decide) h

/-- Claim C7: every offset and size a parser reads is validated
against the file length before use — an out-of-range request fails
with MalformedHeader instead of reading past the end — and a
successful parse implies every range it touched (magic, header, and
the header-declared section table) lies within the input, the
returned table being exactly that in-bounds slice. -/
theorem c7_parser_bounds_safety (data : List Nat) :
    (∀ off size, data.length < off + size →
      readAt data off size = Except.error ParseError.malformedHeader) ∧
    (∀ p, parseContainer data = Except.ok p →
      4 ≤ data.length ∧ 12 ≤ data.length ∧
      (declaredTableRange data).1 + (declaredTableRange data).2 ≤
        data.length ∧
      p.table = (data.drop (declaredTableRange data).1).take
        (declaredTableRange data).2) := by
  constructor
  · intro off size hgt
    unfold readAt
    rw [if_neg (by omega)]
  · intro p hp
    unfold parseContainer at hp
    split at hp
    · exact Except.noConfusion hp
    · rename_i magic h0
      split at hp
      · rename_i hm
        split at hp
        · exact Except.noConfusion hp
        · rename_i hdr h1
          split at hp
          · exact Except.noConfusion hp
          · rename_i table h2
            have hpv : p = { arch := hdr.getD 0 0, table := table } :=
              (Except.ok.inj hp).symm
            have hrange : declaredTableRange data =
                (word16 hdr 2, word16 hdr 4) := by
              simp [declaredTableRange, h1]
            refine ⟨by have := readAt_ok_bound h0; omega,
              by have := readAt_ok_bound h1; omega, ?_, ?_⟩
            · rw [hrange]; exact readAt_ok_bound h2
            · rw [hpv, hrange]
              exact readAt_ok_val h2
      · exact Except.noConfusion hp

/-- Claim C7 witness: a truncated read on the fixture container fails
with MalformedHeader, and the fixture's successful parse touched only
in-bounds ranges, returning the declared table slice. -/
theorem c7_parser_bounds_safety_witness :
    readAt goodContainer 13 2 = Except.error ParseError.malformedHeader ∧
    (4 ≤ goodContainer.length ∧ 12 ≤ goodContainer.length ∧
      (declaredTableRange goodContainer).1 +
          (declaredTableRange goodContainer).2 ≤ goodContainer.length ∧
      ((parseContainer goodContainer).toOption.getD default).table =
        (goodContainer.drop (declaredTableRange goodContainer).1).take
          (declaredTableRange goodContainer).2) := by
  constructor
  · exact (c7_parser_bounds_safety goodContainer).1 13 2 (by decide)
  · exact (c7_parser_bounds_safety goodContainer).2
      ((parseContainer goodContainer).toOption.getD default) (by rfl)

/-- Claim C8 (code behaviour at the failing input): the CheckResult
struct declared in the checks package carries id, description, status,
details and metadata but no Duration field, although the repository's
own test driver prints result.Duration for every executed check. -/
theorem c8_duration_field_missing :
    checkResultDeclaredGoFields.contains "Duration" = false ∧
    testDriverAccessedFields.contains "Duration" = true ∧
    checkResultDeclaredGoFields.contains "ID" = true ∧
    checkResultDeclaredGoFields.contains "Description" = true ∧
    checkResultDeclaredGoFields.contains "Status" = true ∧
    checkResultDeclaredGoFields.contains "Details" = true ∧
    checkResultDeclaredGoFields.contains "Metadata" = true := by
  decide

/-- Claim C9: in the text rendering, a Details string longer than 50
characters is shown as its first 47 characters followed by three dots
(a 50-character cell); one of 50 characters or fewer is shown
unmodified; and the failed-checks section repeats the untruncated
details of every failing result. -/
theorem c9_text_report_truncation (d : List Char)
    (report : ComplianceReport) :
    (d.length > 50 →
      detailsCell d = d.take 47 ++ ['.', '.', '.'] ∧
      (detailsCell d).length = 50) ∧
    (d.length ≤ 50 → detailsCell d = d) ∧
    (report.failedChecks > 0 →
      ∀ r ∈ report.results, r.status = CheckStatus.fail →
        r.details ∈ failedChecksDetails report) := by
  refine ⟨?_, ?_, ?_⟩
  · intro hlong
    unfold detailsCell
    rw [if_pos hlong]
    refine ⟨rfl, ?_⟩
    rw [List.length_append, List.length_take]
    simp
    omega
  · intro hshort
    unfold detailsCell
    rw [if_neg (by omega)]
  · intro hfail r hmem hst
    unfold failedChecksDetails
    rw [if_pos hfail]
    exact List.mem_map_of_mem _ (List.mem_filter.mpr ⟨hmem, by simp [hst]⟩)

/-- Claim C9 witness: a 51-character details string is truncated to 47
characters plus three dots, a 50-character one is untouched, and a
failing result's full details appear in the failed-checks section. -/
theorem c9_text_report_truncation_witness :
    detailsCell (List.replicate 51 'x') =
        (List.replicate 51 'x').take 47 ++ ['.', '.', '.'] ∧
    detailsCell (List.replicate 50 'x') = List.replicate 50 'x' ∧
    sampleFailResult.details ∈ failedChecksDetails sampleFailReport := by
  refine ⟨?_, ?_, ?_⟩
  · exact ((c9_text_report_truncation (List.replicate 51 'x')
      sampleFailReport).1 (by simp)).1
  · exact (c9_text_report_truncation (List.replicate 50 'x')
      sampleFailReport).2.1 (by simp)
  · exact (c9_text_report_truncation [] sampleFailReport).2.2 (by decide)
      sampleFailResult (by simp [sampleFailReport]) rfl

/-- Claim C10: mapChromeVersionToClientHelloID is total and never
returns an error — for every ChromeVersion it returns a ClientHelloID
with a nil error, and every version with Major strictly below 70 maps
to the HelloChrome_100 fallback. -/
theorem c10_map_total_no_error (v : ChromeVersion) :
    (mapChromeVersionToClientHelloID v).2 = none ∧
    (v.major < 70 →
      (mapChromeVersionToClientHelloID v).1 =
        ClientHelloID.helloChrome_100) := by
  constructor
  · unfold mapChromeVersionToClientHelloID
    simp only [apply_ite
      (Prod.snd : ClientHelloID × Option String → Option String), ite_self]
  · intro hlt
    have h133 : ¬ (v.major ≥ 133) := by omega
    have h131 : ¬ (v.major ≥ 131) := by omega
    have h120 : ¬ (v.major ≥ 120) := by omega
    have h115 : ¬ (v.major ≥ 115) := by omega
    have h106 : ¬ (v.major ≥ 106) := by omega
    have h102 : ¬ (v.major ≥ 102) := by omega
    have h100 : ¬ (v.major ≥ 100) := by omega
    have h96 : ¬ (v.major ≥ 96) := by omega
    have h87 : ¬ (v.major ≥ 87) := by omega
    have h83 : ¬ (v.major ≥ 83) := by omega
    have h72 : ¬ (v.major ≥ 72) := by omega
    have h70 : ¬ (v.major ≥ 70) := by omega
    simp [mapChromeVersionToClientHelloID, h133, h131, h120, h115, h106,
      h102, h100, h96, h87, h83, h72, h70]

/-- Claim C10 witness: the theorem instantiated at Chrome 65.0.0.0,
whose major version is below 70. -/
theorem c10_map_total_no_error_witness :
    (mapChromeVersionToClientHelloID ⟨65, 0, 0, 0⟩).2 = none ∧
    (mapChromeVersionToClientHelloID ⟨65, 0, 0, 0⟩).1 =
      ClientHelloID.helloChrome_100 :=
  ⟨(c10_map_total_no_error ⟨65, 0, 0, 0⟩).1,
   (c10_map_total_no_error ⟨65, 0, 0, 0⟩).2 (by decide)⟩

end Betanet
